import Mathlib

/-!
Shallow embedding of the leader-election core of talos-kms-vault:
the lease manager (pkg/leaderelection/lease.go), the election
controller (pkg/leaderelection/election.go) and the leadership gate
(pkg/server/leader.go).

Times are modelled as integer nanoseconds (Go time.Time / time.Duration
arithmetic on int64 nanoseconds; metav1.MicroTime only changes the wire
precision, not the comparisons).  Go pointers to scalars become Option;
a nil-pointer dereference is modelled by a `none` / `panicked` result.
The Kubernetes backend is modelled by explicit parameters: the result
of the Get call and a flag saying whether the Create/Update write is
accepted by the backend.
-/

namespace TalosKMSVault

/-- coordinationv1.LeaseSpec, the fields the repository reads or writes.
Every field is a pointer in Go, hence Option here.  `leaseTransitions`
and `leaseDurationSeconds` are int32 in Go, embedded as Int values; the
one arithmetic step on them performed by the repository, the transition
increment in updateLease, is modelled with explicit two's-complement
int32 wraparound (`int32Wrap`). -/
structure LeaseSpec where
  holderIdentity : Option String
  leaseDurationSeconds : Option Int
  acquireTime : Option Int
  renewTime : Option Int
  leaseTransitions : Option Int
deriving DecidableEq, Repr

/-- The part of LeaseConfig the lease algorithms read: the instance
identity and the configured lease duration (as the whole-second value
that createLease writes into the lease).  Name and namespace only
address the backend resource and are not modelled. -/
structure LeaseConfig where
  identity : String
  leaseDurationSeconds : Int
deriving DecidableEq, Repr

/-- canAcquireLease (lease.go:163-184).  Returns none when the Go code
dereferences the nil LeaseDurationSeconds pointer (a panic): that line
is reached exactly when the holder is set to another identity and the
renew time is set.  `now.Time.After(expiry)` is a strict comparison. -/
def canAcquireLease (identity : String) (lease : LeaseSpec) (now : Int) : Option Bool :=
  if lease.holderIdentity = some identity then
    some true
  else if lease.holderIdentity = none then
    some true
  else if lease.renewTime = none then
    some true
  else
    match lease.leaseDurationSeconds, lease.renewTime with
    | some d, some rt => some (decide (now > rt + d * 1000000000))
    | _, _ => none

/-- Two's-complement int32 wraparound: the value a Go int32 holds after
an arithmetic step whose mathematical result is n. -/
def int32Wrap (n : Int) : Int :=
  (n + 2147483648) % 4294967296 - 2147483648

/-- updateLease (lease.go:136-161), the new lease contents written to
the backend.  wasLeader compares the previous holder with our identity;
a nil transitions pointer is replaced by 1, otherwise the int32 count
is incremented with Go's wrapping int32 semantics. -/
def updateLease (identity : String) (lease : LeaseSpec) (now : Int) : LeaseSpec :=
  let wasLeader := lease.holderIdentity = some identity
  let l1 : LeaseSpec :=
    { lease with holderIdentity := some identity, renewTime := some now }
  if wasLeader then
    l1
  else
    { l1 with
        acquireTime := some now,
        leaseTransitions :=
          match lease.leaseTransitions with
          | some t => some (int32Wrap (t + 1))
          | none => some 1 }

/-- The lease body built by createLease (lease.go:112-124): holder =
self, configured duration, acquire/renew time = now, transitions = 0. -/
def newLease (cfg : LeaseConfig) (now : Int) : LeaseSpec :=
  { holderIdentity := some cfg.identity,
    leaseDurationSeconds := some cfg.leaseDurationSeconds,
    acquireTime := some now,
    renewTime := some now,
    leaseTransitions := some 0 }

/-- Which write, if any, an AcquireLease call sent to the backend. -/
inductive WriteAttempt where
  | created (l : LeaseSpec)
  | updated (l : LeaseSpec)
  | noWrite
deriving DecidableEq, Repr

/-- Outcome of AcquireLease: `ok acquired a` is (acquired, nil error),
`backendErr a` is (false, non-nil error) after the write `a` was
rejected, `panicked` is the nil-pointer dereference in
canAcquireLease. -/
inductive AcquireResult where
  | ok (acquired : Bool) (attempt : WriteAttempt)
  | backendErr (attempt : WriteAttempt)
  | panicked
deriving DecidableEq, Repr

/-- createLease (lease.go:110-134): builds `newLease` and issues the
Create; success returns (true, nil), a rejected create returns
(false, wrapped error). -/
def createLease (cfg : LeaseConfig) (now : Int) (writeOk : Bool) : AcquireResult :=
  if writeOk then .ok true (.created (newLease cfg now))
  else .backendErr (.created (newLease cfg now))

/-- AcquireLease (lease.go:90-108).  `getResult` is the backend Get:
`.error ()` is ANY non-nil error (the code does not distinguish
not-found from transient failures), `.ok lease` the existing lease.
`writeOk` says whether the backend accepts the Create/Update write. -/
def AcquireLease (cfg : LeaseConfig) (getResult : Except Unit LeaseSpec)
    (writeOk : Bool) (now : Int) : AcquireResult :=
  match getResult with
  | .error _ => createLease cfg now writeOk
  | .ok lease =>
    match canAcquireLease cfg.identity lease now with
    | none => .panicked
    | some true =>
        let l := updateLease cfg.identity lease now
        if writeOk then .ok true (.updated l) else .backendErr (.updated l)
    | some false => .ok false .noWrite

/-- The write attempt recorded in an AcquireResult. -/
def writeAttempt : AcquireResult → WriteAttempt
  | .ok _ a => a
  | .backendErr a => a
  | .panicked => .noWrite

/-! ## ElectionController (pkg/leaderelection/election.go) -/

/-- The mutable controller state guarded by ec.mu (election.go:29-42).
`lastLeaderChange` starts at the Go zero time, modelled as 0. -/
structure ElectionState where
  isLeader : Bool
  currentLeader : String
  lastLeaderChange : Int
  leadershipChanges : Int
  acquisitionErrors : Int
  renewalErrors : Int
deriving DecidableEq, Repr

/-- The field of the GetLeaseInfo snapshot that updateLeadershipState
consumes: the holder identity, mapped to "" when the holder pointer is
nil (lease.go:229-232). -/
structure LeaseInfo where
  holderIdentity : String
deriving DecidableEq, Repr

/-- The callbacks dispatched (as goroutines) by one controller step:
OnStartedLeading, OnStoppedLeading, and OnNewLeader with its argument. -/
structure Dispatched where
  startedLeading : Bool
  stoppedLeading : Bool
  newLeader : Option String
deriving DecidableEq, Repr

/-- No callback dispatched. -/
def Dispatched.silent : Dispatched :=
  { startedLeading := false, stoppedLeading := false, newLeader := none }

/-- updateLeadershipState (election.go:188-247).  Writes the new
isLeader/currentLeader, bumps leadershipChanges and lastLeaderChange
when either the local flag or the observed leader changed, and
dispatches the transition callbacks. -/
def updateLeadershipState (st : ElectionState) (acquired : Bool)
    (leaseInfo : LeaseInfo) (now : Int) : ElectionState × Dispatched :=
  let wasLeader := st.isLeader
  let oldLeader := st.currentLeader
  let st1 : ElectionState :=
    { st with isLeader := acquired, currentLeader := leaseInfo.holderIdentity }
  let leadershipChanged := wasLeader ≠ st1.isLeader
  let leaderChanged := oldLeader ≠ st1.currentLeader
  let st2 : ElectionState :=
    if leadershipChanged ∨ leaderChanged then
      { st1 with
          lastLeaderChange := now,
          leadershipChanges := st1.leadershipChanges + 1 }
    else st1
  (st2,
    { startedLeading := leadershipChanged ∧ st1.isLeader,
      stoppedLeading := leadershipChanged ∧ ¬ st1.isLeader,
      newLeader := if leaderChanged then some st1.currentLeader else none })

/-- stepDown (election.go:249-264): clears isLeader and, if the
instance was leading, dispatches OnStoppedLeading once. -/
def stepDown (st : ElectionState) : ElectionState × Dispatched :=
  let wasLeader := st.isLeader
  ({ st with isLeader := false },
   { startedLeading := false, stoppedLeading := wasLeader, newLeader := none })

/-- tryAcquireLease (election.go:152-185).  `res` is the AcquireLease
outcome; `info` is the GetLeaseInfo result, none meaning it errored
(the step logs and changes nothing).  On an acquire error the matching
error counter is bumped (acquisitionErrors when currently leading,
renewalErrors otherwise) and a leading instance steps down.  A
`panicked` acquire crashes the goroutine: modelled as none. -/
def tryAcquireLease (st : ElectionState) (res : AcquireResult)
    (info : Option LeaseInfo) (now : Int) : Option (ElectionState × Dispatched) :=
  match res with
  | .panicked => none
  | .backendErr _ =>
      let st1 : ElectionState :=
        if st.isLeader then
          { st with acquisitionErrors := st.acquisitionErrors + 1 }
        else
          { st with renewalErrors := st.renewalErrors + 1 }
      some (if st1.isLeader then stepDown st1 else (st1, Dispatched.silent))
  | .ok acquired _ =>
      match info with
      | none => some (st, Dispatched.silent)
      | some i => some (updateLeadershipState st acquired i now)

/-- What the shutdown path produced: the final state, whether a
ReleaseLease call was attempted, and whether OnStoppedLeading fired. -/
structure ExitResult where
  state : ElectionState
  releaseAttempted : Bool
  stoppedLeadingFired : Bool
deriving DecidableEq, Repr

/-- releaseLeadershipOnExit (election.go:266-290): clears isLeader;
when the instance was leading it attempts ReleaseLease under a 5s
timeout and fires OnStoppedLeading exactly once — also when the
release errors (`releaseErr`), which is only logged. -/
def releaseLeadershipOnExit (st : ElectionState) (releaseErr : Bool) : ExitResult :=
  let wasLeader := st.isLeader
  let st1 : ElectionState := { st with isLeader := false }
  if wasLeader then
    { state := st1, releaseAttempted := true, stoppedLeadingFired := true }
  else
    { state := st1, releaseAttempted := false, stoppedLeadingFired := false }

/-- One observable event of the election loop run (election.go:127-149):
a ticker round with its backend results, a Stop signal, or a context
cancellation. -/
inductive LoopEvent where
  | tick (res : AcquireResult) (info : Option LeaseInfo) (now : Int)
  | stop
  | cancel
deriving Repr

/-- The run loop (election.go:127-149): processes ticks via
tryAcquireLease, and on stop or cancel runs the deferred
releaseLeadershipOnExit.  Returns none while no exit event has been
consumed (or when a tick panicked), otherwise the exit outcome and the
callbacks dispatched along the way. -/
def runLoop (st : ElectionState) (events : List LoopEvent) (releaseErr : Bool) :
    Option (ExitResult × List Dispatched) :=
  match events with
  | [] => none
  | .tick res info now :: rest =>
      match tryAcquireLease st res info now with
      | none => none
      | some (st1, cbs) =>
          (runLoop st1 rest releaseErr).map (fun p => (p.1, cbs :: p.2))
  | .stop :: _ => some (releaseLeadershipOnExit st releaseErr, [])
  | .cancel :: _ => some (releaseLeadershipOnExit st releaseErr, [])

/-! ## LeadershipGate (pkg/server/leader.go) -/

/-- The LeaderAwareServer gate flags guarded by las.mu
(leader.go:24-27). -/
structure GateState where
  isLeader : Bool
  isActive : Bool
deriving DecidableEq, Repr

/-- checkLeadership (leader.go:118-123). -/
def checkLeadership (st : GateState) : Bool :=
  st.isLeader && st.isActive

/-- OnBecomeLeader (leader.go:65-72): sets both flags. -/
def OnBecomeLeader (st : GateState) : GateState :=
  { st with isLeader := true, isActive := true }

/-- OnLoseLeadership (leader.go:75-82): clears both flags. -/
def OnLoseLeadership (st : GateState) : GateState :=
  { st with isLeader := false, isActive := false }

/-- Result of a gated KMS operation: the wrapped server was invoked,
or one of the two codes.Unavailable rejections built by
createNotLeaderError. -/
inductive GatedResult where
  | forwarded
  | notLeaderErr (leader : String)
  | noLeaderErr
deriving DecidableEq, Repr

/-- createNotLeaderError (leader.go:126-135): "No leader elected" when
the known leader identity is empty, else "Not the leader - current
leader is <id>". -/
def createNotLeaderError (currentLeader : String) : GatedResult :=
  if currentLeader = "" then .noLeaderErr
  else .notLeaderErr currentLeader

/-- Seal (leader.go:90-97): forwards to the wrapped server iff
checkLeadership passes, else returns createNotLeaderError built from
the election controller's current leader. -/
def Seal (st : GateState) (currentLeader : String) : GatedResult :=
  if checkLeadership st then .forwarded
  else createNotLeaderError currentLeader

/-- Unseal (leader.go:100-107): identical gating to Seal. -/
def Unseal (st : GateState) (currentLeader : String) : GatedResult :=
  if checkLeadership st then .forwarded
  else createNotLeaderError currentLeader

/-! ## Theorems -/

/-- C1: for every existing lease whose duration field is set (the case
in which the eligibility check is defined, cf. C9) and every current
time, AcquireLease attempts the update write iff the holder is self,
or the holder is unset, or the renew time is unset, or now is after
renewTime + leaseDuration; when none of these holds it returns
acquired = false with nil error and no write. -/
theorem acquireLease_write_iff_eligible
    (cfg : LeaseConfig) (lease : LeaseSpec) (now : Int) (writeOk : Bool) (d : Int)
    (hd : lease.leaseDurationSeconds = some d) :
    ((∃ l, writeAttempt (AcquireLease cfg (.ok lease) writeOk now) = .updated l) ↔
      (lease.holderIdentity = some cfg.identity ∨ lease.holderIdentity = none ∨
       lease.renewTime = none ∨
       ∃ rt, lease.renewTime = some rt ∧ now > rt + d * 1000000000)) ∧
    (¬ (lease.holderIdentity = some cfg.identity ∨ lease.holderIdentity = none ∨
        lease.renewTime = none ∨
        ∃ rt, lease.renewTime = some rt ∧ now > rt + d * 1000000000) →
      AcquireLease cfg (.ok lease) writeOk now = .ok false .noWrite) := by
  rcases hh : lease.holderIdentity with _ | holder
  · cases writeOk <;> simp [AcquireLease, canAcquireLease, writeAttempt, hh]
  · by_cases hself : holder = cfg.identity
    · subst hself
      cases writeOk <;> simp [AcquireLease, canAcquireLease, writeAttempt, hh]
    · rcases hr : lease.renewTime with _ | rt
      · cases writeOk <;>
          simp [AcquireLease, canAcquireLease, writeAttempt, hh, hr, hself]
      · by_cases hexp : now > rt + d * 1000000000
        · cases writeOk <;>
            simp [AcquireLease, canAcquireLease, writeAttempt, hh, hr, hd, hself, hexp]
        · simp [AcquireLease, canAcquireLease, writeAttempt, hh, hr, hd, hself, hexp]

/-- C1 witness: a held, unexpired lease with another holder is not
eligible, and AcquireLease returns (false, nil) without a write. -/
theorem acquireLease_write_iff_eligible_witness :
    AcquireLease ⟨"self", 15⟩
      (.ok ⟨some "other", some 15, some 0, some 5, some 0⟩) true 3 =
      .ok false .noWrite :=
  (acquireLease_write_iff_eligible ⟨"self", 15⟩
      ⟨some "other", some 15, some 0, some 5, some 0⟩ 3 true 15 rfl).2
    (by rintro (h | h | h | ⟨rt, hrt, hgt⟩) <;> simp_all <;> omega)

/-- C5 counterexample: at the backend's int32 maximum transition count
2147483647, an expired-lease takeover by another identity still
succeeds, but Go's int32 increment wraps: the written count is
-2147483648, not the old count plus 1. -/
theorem acquireLease_transitions_wrap_counterexample :
    AcquireLease ⟨"B", 15⟩
      (.ok ⟨some "A", some 15, some 100, some 100, some 2147483647⟩) true
      30000000100 =
      .ok true (.updated (updateLease "B"
        ⟨some "A", some 15, some 100, some 100, some 2147483647⟩ 30000000100)) ∧
    (updateLease "B" ⟨some "A", some 15, some 100, some 100, some 2147483647⟩
        30000000100).leaseTransitions = some (-2147483648) ∧
    (updateLease "B" ⟨some "A", some 15, some 100, some 100, some 2147483647⟩
        30000000100).leaseTransitions ≠ some (2147483647 + 1) := by
  decide

/-- C5 amended: when the lease is held by another identity and expired
(now > renewTime + leaseDuration), AcquireLease succeeds (given the
backend accepts the write), writes holder = self, acquireTime and
renewTime = now, and writes the int32 wraparound of the old transition
count plus 1 (a nil count is written as 1 = 0 + 1) — which is an
increment by exactly 1 whenever the old int32 count is below the int32
maximum 2147483647. -/
theorem acquireLease_expiry_takeover
    (cfg : LeaseConfig) (lease : LeaseSpec) (now rt d : Int) (h : String)
    (hh : lease.holderIdentity = some h) (hne : h ≠ cfg.identity)
    (hr : lease.renewTime = some rt) (hd : lease.leaseDurationSeconds = some d)
    (hexp : now > rt + d * 1000000000) :
    AcquireLease cfg (.ok lease) true now =
      .ok true (.updated (updateLease cfg.identity lease now)) ∧
    (updateLease cfg.identity lease now).holderIdentity = some cfg.identity ∧
    (updateLease cfg.identity lease now).acquireTime = some now ∧
    (updateLease cfg.identity lease now).renewTime = some now ∧
    (updateLease cfg.identity lease now).leaseTransitions =
      some (int32Wrap (lease.leaseTransitions.getD 0 + 1)) ∧
    (-2147483648 ≤ lease.leaseTransitions.getD 0 ∧
        lease.leaseTransitions.getD 0 < 2147483647 →
      (updateLease cfg.identity lease now).leaseTransitions =
        some (lease.leaseTransitions.getD 0 + 1)) := by
  rcases ht : lease.leaseTransitions with _ | t <;>
    simp [AcquireLease, canAcquireLease, updateLease, hh, hr, hd, hexp, hne, ht,
      int32Wrap] <;>
    omega

/-- C5 witness: instance B takes over A's lease expired 15s ago,
transitions go from 3 to int32Wrap 4 = 4 and acquire/renew time become
now; 3 is inside the int32 range, so the exact-increment clause
applies. -/
theorem acquireLease_expiry_takeover_witness :
    AcquireLease ⟨"B", 15⟩
      (.ok ⟨some "A", some 15, some 100, some 100, some 3⟩) true 30000000100 =
      .ok true (.updated (updateLease "B"
        ⟨some "A", some 15, some 100, some 100, some 3⟩ 30000000100)) ∧
    (updateLease "B" ⟨some "A", some 15, some 100, some 100, some 3⟩
        30000000100).holderIdentity = some "B" ∧
    (updateLease "B" ⟨some "A", some 15, some 100, some 100, some 3⟩
        30000000100).acquireTime = some 30000000100 ∧
    (updateLease "B" ⟨some "A", some 15, some 100, some 100, some 3⟩
        30000000100).renewTime = some 30000000100 ∧
    (updateLease "B" ⟨some "A", some 15, some 100, some 100, some 3⟩
        30000000100).leaseTransitions =
      some (int32Wrap ((Option.some (3 : Int)).getD 0 + 1)) ∧
    (-2147483648 ≤ (Option.some (3 : Int)).getD 0 ∧
        (Option.some (3 : Int)).getD 0 < 2147483647 →
      (updateLease "B" ⟨some "A", some 15, some 100, some 100, some 3⟩
          30000000100).leaseTransitions =
        some ((Option.some (3 : Int)).getD 0 + 1)) :=
  acquireLease_expiry_takeover ⟨"B", 15⟩
    ⟨some "A", some 15, some 100, some 100, some 3⟩ 30000000100 100 15 "A"
    rfl (by decide) rfl rfl (by decide)

/-- C6: when the lease is already held by this instance, AcquireLease
succeeds (given the backend accepts the write) and the written lease
differs from the old one only in renewTime (set to now) and in the
holder field rewritten to the same value: acquireTime and the
transition count are untouched.  This holds with no expiry
precondition, so in particular before expiry. -/
theorem acquireLease_renewal_frame
    (cfg : LeaseConfig) (lease : LeaseSpec) (now : Int)
    (hh : lease.holderIdentity = some cfg.identity) :
    AcquireLease cfg (.ok lease) true now =
      .ok true (.updated (updateLease cfg.identity lease now)) ∧
    updateLease cfg.identity lease now =
      { lease with holderIdentity := some cfg.identity, renewTime := some now } := by
  simp [AcquireLease, canAcquireLease, updateLease, hh]

/-- C6 witness: the current holder renews; acquireTime 100 and
transition count 3 survive, renewTime becomes 200. -/
theorem acquireLease_renewal_frame_witness :
    AcquireLease ⟨"A", 15⟩
      (.ok ⟨some "A", some 15, some 100, some 100, some 3⟩) true 200 =
      .ok true (.updated (updateLease "A"
        ⟨some "A", some 15, some 100, some 100, some 3⟩ 200)) ∧
    updateLease "A" ⟨some "A", some 15, some 100, some 100, some 3⟩ 200 =
      { holderIdentity := some "A", leaseDurationSeconds := some 15,
        acquireTime := some 100, renewTime := some 200,
        leaseTransitions := some 3 } :=
  acquireLease_renewal_frame ⟨"A", 15⟩
    ⟨some "A", some 15, some 100, some 100, some 3⟩ 200 rfl

/-- C9: on a lease whose holder is set to another identity and whose
renew time is set but whose duration field is unset, canAcquireLease
reaches the unguarded dereference of the nil duration pointer: the
check is undefined (none) instead of returning a boolean. -/
theorem canAcquireLease_nil_duration_undefined
    (identity h : String) (a t : Option Int) (rt now : Int)
    (hne : h ≠ identity) :
    canAcquireLease identity ⟨some h, none, a, some rt, t⟩ now = none := by
  simp [canAcquireLease, hne]

/-- C9 witness: a concrete lease held by "other" with renew time set
and no duration makes the eligibility check of "self" undefined. -/
theorem canAcquireLease_nil_duration_undefined_witness :
    canAcquireLease "self" ⟨some "other", none, none, some 0, none⟩ 0 = none :=
  canAcquireLease_nil_duration_undefined "self" "other" none none 0 0 (by decide)

/-- C10: every backend Get error — not only not-found — makes
AcquireLease fall through to createLease, which writes a fresh lease
held by this instance; the caller gets the create outcome: (true, nil)
when the backend accepts the create, an error when it rejects it.  The
read error itself is never surfaced distinctly and nothing is
retried. -/
theorem acquireLease_get_error_creates
    (cfg : LeaseConfig) (writeOk : Bool) (now : Int) :
    AcquireLease cfg (.error ()) writeOk now = createLease cfg now writeOk ∧
    createLease cfg now writeOk =
      (if writeOk then .ok true (.created (newLease cfg now))
       else .backendErr (.created (newLease cfg now))) :=
  ⟨rfl, rfl⟩

/-- C2 counterexample: starting from a follower state (isLeader =
false) that observed leader "A", a tick that stays non-leader but
observes leader "B" leaves isLeader unchanged yet increments
leadershipChanges from 0 to 1 and rewrites lastLeaderChange — the
counter is NOT incremented only on isLeader transitions. -/
theorem updateLeadershipState_counts_identity_change :
    (updateLeadershipState ⟨false, "A", 0, 0, 0, 0⟩ false ⟨"B"⟩ 7).1.isLeader =
      (⟨false, "A", 0, 0, 0, 0⟩ : ElectionState).isLeader ∧
    (updateLeadershipState ⟨false, "A", 0, 0, 0, 0⟩ false ⟨"B"⟩ 7).1.leadershipChanges ≠
      (⟨false, "A", 0, 0, 0, 0⟩ : ElectionState).leadershipChanges ∧
    (updateLeadershipState ⟨false, "A", 0, 0, 0, 0⟩ false ⟨"B"⟩ 7).1.lastLeaderChange = 7 := by
  decide

/-- C2 amended: updateLeadershipState increments leadershipChanges and
records lastLeaderChange exactly when the local isLeader flag
transitioned OR the observed leader identity changed; OnNewLeader
(onLeaderIdentityChanged) is dispatched exactly when the identity
changed, and OnStartedLeading/OnStoppedLeading exactly on local
transitions. -/
theorem updateLeadershipState_transition_spec
    (st : ElectionState) (acquired : Bool) (holder : String) (now : Int) :
    (updateLeadershipState st acquired ⟨holder⟩ now).1.isLeader = acquired ∧
    (updateLeadershipState st acquired ⟨holder⟩ now).1.currentLeader = holder ∧
    (updateLeadershipState st acquired ⟨holder⟩ now).1.leadershipChanges =
      (if st.isLeader ≠ acquired ∨ st.currentLeader ≠ holder
       then st.leadershipChanges + 1 else st.leadershipChanges) ∧
    (updateLeadershipState st acquired ⟨holder⟩ now).1.lastLeaderChange =
      (if st.isLeader ≠ acquired ∨ st.currentLeader ≠ holder
       then now else st.lastLeaderChange) ∧
    ((updateLeadershipState st acquired ⟨holder⟩ now).2.startedLeading = true ↔
      (st.isLeader ≠ acquired ∧ acquired = true)) ∧
    ((updateLeadershipState st acquired ⟨holder⟩ now).2.stoppedLeading = true ↔
      (st.isLeader ≠ acquired ∧ acquired = false)) ∧
    (updateLeadershipState st acquired ⟨holder⟩ now).2.newLeader =
      (if st.currentLeader ≠ holder then some holder else none) := by
  cases acquired <;> cases hl : st.isLeader <;>
    by_cases hc : st.currentLeader = holder <;>
      simp [updateLeadershipState, hl, hc]

/-- C3: the gate fails closed — checkLeadership is false whenever
isLeader is false (its result never consults the observed leader
identity, which is not even an input) and true exactly when both
isLeader and the active flag hold; OnBecomeLeader sets both flags and
OnLoseLeadership clears both. -/
theorem checkLeadership_fail_closed (st : GateState) :
    (st.isLeader = false → checkLeadership st = false) ∧
    (checkLeadership st = true ↔ st.isLeader = true ∧ st.isActive = true) ∧
    (OnBecomeLeader st).isLeader = true ∧ (OnBecomeLeader st).isActive = true ∧
    (OnLoseLeadership st).isLeader = false ∧ (OnLoseLeadership st).isActive = false := by
  cases st with
  | mk l a =>
      cases l <;> cases a <;>
        simp [checkLeadership, OnBecomeLeader, OnLoseLeadership]

/-- C3 witness: with isLeader unset but the active flag still set,
the gate denies. -/
theorem checkLeadership_fail_closed_witness :
    checkLeadership ⟨false, true⟩ = false :=
  (checkLeadership_fail_closed ⟨false, true⟩).1 rfl

/-- C4: when the controller is currently leading and AcquireLease
returns an error, the attempt bumps the error counter, clears
isLeader, and dispatches OnStoppedLeading exactly once (and no other
callback) — all within tryAcquireLease, before the attempt completes. -/
theorem tryAcquireLease_error_steps_down
    (st : ElectionState) (attempt : WriteAttempt) (info : Option LeaseInfo)
    (now : Int) (hl : st.isLeader = true) :
    tryAcquireLease st (.backendErr attempt) info now =
      some ({ st with isLeader := false,
                      acquisitionErrors := st.acquisitionErrors + 1 },
            { startedLeading := false, stoppedLeading := true,
              newLeader := none }) := by
  cases st with
  | mk l cl llc lc ae re =>
      simp only [ElectionState.isLeader] at hl
      subst hl
      simp [tryAcquireLease, stepDown]

/-- C4 witness: a leading controller with 2 prior errors loses
leadership on a failed renewal; OnStoppedLeading fires once. -/
theorem tryAcquireLease_error_steps_down_witness :
    tryAcquireLease ⟨true, "A", 0, 2, 0, 0⟩ (.backendErr .noWrite) none 5 =
      some (⟨false, "A", 0, 2, 1, 0⟩,
            ⟨false, true, none⟩) :=
  (tryAcquireLease_error_steps_down ⟨true, "A", 0, 2, 0, 0⟩ .noWrite none 5
    rfl).trans (by decide)

/-- C7: while the gate denies (checkLeadership false), Seal and Unseal
never invoke the wrapped service; the error is exactly the
no-leader-elected rejection when the known leader identity is empty
and the not-leader rejection carrying that identity otherwise, and
Unseal rejects identically to Seal. -/
theorem gated_call_rejection
    (st : GateState) (cl : String) (hadm : checkLeadership st = false) :
    Seal st cl ≠ .forwarded ∧
    Seal st cl = (if cl = "" then .noLeaderErr else .notLeaderErr cl) ∧
    Unseal st cl = Seal st cl := by
  by_cases hc : cl = "" <;> simp [Seal, Unseal, createNotLeaderError, hadm, hc]

/-- C7 witness: a non-leading gate that knows leader "B" rejects with
the not-leader error embedding "B". -/
theorem gated_call_rejection_witness :
    Seal ⟨false, false⟩ "B" ≠ .forwarded ∧
    Seal ⟨false, false⟩ "B" = (if "B" = "" then .noLeaderErr else .notLeaderErr "B") ∧
    Unseal ⟨false, false⟩ "B" = Seal ⟨false, false⟩ "B" :=
  gated_call_rejection ⟨false, false⟩ "B" rfl

/-- The shutdown path clears isLeader and, exactly when the instance
was leading at exit, attempts the release and fires OnStoppedLeading —
independently of whether the release errors. -/
theorem releaseLeadershipOnExit_spec (st : ElectionState) (releaseErr : Bool) :
    (releaseLeadershipOnExit st releaseErr).state.isLeader = false ∧
    ((releaseLeadershipOnExit st releaseErr).releaseAttempted = true ↔
      st.isLeader = true) ∧
    ((releaseLeadershipOnExit st releaseErr).stoppedLeadingFired = true ↔
      st.isLeader = true) := by
  cases hl : st.isLeader <;> simp [releaseLeadershipOnExit, hl]

/-- C8: every exit of the election loop (stop or cancel) runs the
deferred releaseLeadershipOnExit on the state reached at exit time: if
the instance was then leading, the release is attempted and
OnStoppedLeading fires exactly once during shutdown, also when the
release attempt errors; afterwards isLeader is false. -/
theorem runLoop_exit_releases
    (st : ElectionState) (events : List LoopEvent) (releaseErr : Bool)
    (ex : ExitResult) (cbs : List Dispatched)
    (hrun : runLoop st events releaseErr = some (ex, cbs)) :
    (∃ st', ex = releaseLeadershipOnExit st' releaseErr ∧
      (st'.isLeader = true →
        ex.releaseAttempted = true ∧ ex.stoppedLeadingFired = true)) ∧
    ex.state.isLeader = false := by
  induction events generalizing st cbs with
  | nil => simp [runLoop] at hrun
  | cons e rest ih =>
    cases e with
    | tick res info now =>
        rw [runLoop] at hrun
        cases htry : tryAcquireLease st res info now with
        | none => rw [htry] at hrun; simp at hrun
        | some p =>
            rw [htry] at hrun
            rcases Option.map_eq_some'.mp hrun with ⟨⟨ex2, cbs2⟩, hr2, heq⟩
            obtain ⟨he, hc⟩ := Prod.mk.injEq .. |>.mp heq
            subst he
            exact ih p.1 cbs2 hr2
    | stop =>
        rw [runLoop] at hrun
        obtain ⟨he, hc⟩ := Prod.mk.injEq .. |>.mp (Option.some.injEq .. |>.mp hrun)
        subst he
        refine ⟨⟨st, rfl, fun hl => ?_⟩, (releaseLeadershipOnExit_spec st releaseErr).1⟩
        exact ⟨(releaseLeadershipOnExit_spec st releaseErr).2.1.mpr hl,
               (releaseLeadershipOnExit_spec st releaseErr).2.2.mpr hl⟩
    | cancel =>
        rw [runLoop] at hrun
        obtain ⟨he, hc⟩ := Prod.mk.injEq .. |>.mp (Option.some.injEq .. |>.mp hrun)
        subst he
        refine ⟨⟨st, rfl, fun hl => ?_⟩, (releaseLeadershipOnExit_spec st releaseErr).1⟩
        exact ⟨(releaseLeadershipOnExit_spec st releaseErr).2.1.mpr hl,
               (releaseLeadershipOnExit_spec st releaseErr).2.2.mpr hl⟩

/-- C8 witness: a leading instance stopped while the release errors
still attempts the release, fires OnStoppedLeading, and exits
non-leader. -/
theorem runLoop_exit_releases_witness :
    runLoop ⟨true, "self", 0, 1, 0, 0⟩ [.stop] true =
      some (⟨⟨false, "self", 0, 1, 0, 0⟩, true, true⟩, []) ∧
    (⟨⟨false, "self", 0, 1, 0, 0⟩, true, true⟩ : ExitResult).state.isLeader = false :=
  ⟨by decide,
   (runLoop_exit_releases ⟨true, "self", 0, 1, 0, 0⟩ [.stop] true
      ⟨⟨false, "self", 0, 1, 0, 0⟩, true, true⟩ [] (by decide)).2⟩

end TalosKMSVault
